import Mathlib

/-!
Shallow embedding of `src/skipper.rs` (turboflakes/skipper): the resilient
session supervisor of a blockchain monitoring agent.  External effects
(logging, sleeping, sending chat messages, spawning processes) are recorded
as an ordered trace of `Event`s, and external collaborators (the node RPC
client, the Matrix sink, the filesystem, spawned processes) are supplied as
oracle inputs, so every function here is a pure translation of the Rust
control flow.
-/

namespace Skipper

/-- Process-wide configuration consumed by the core (`crate::config::Config`):
the node websocket endpoint and the error cooldown interval in minutes. -/
structure Config where
  substrate_ws_url : String
  error_interval : Nat
deriving DecidableEq

/-- Modelled from the spec: `SkipperError` lives in `src/errors.rs`, which is
not under `src/`.  The variants matched by `src/skipper.rs` are
`SubscriptionFinished` and `MatrixError`; every other variant (the
`Other(message)` catch-all of the spec for decode, hook and I/O faults,
plus the conversions used by the `?` operators in `try_call_hook`: one for
`std::io::Error` from launching the process and one for `FromUtf8Error`
from decoding its stdout) falls into the `_` arm of the classifier. -/
inductive SkipperError where
  | SubscriptionFinished
  | MatrixError (m : String)
  | Other (message : String)
  | IoError (m : String)
  | Utf8Error
deriving DecidableEq

/-- Modelled from the spec: the `Display` strings of `SkipperError`
(`src/errors.rs` is not under `src/`); the supervisor logs errors through
their `Display` form.  No claim depends on the exact text. -/
def SkipperError.display : SkipperError → String
  | .SubscriptionFinished => "subscription finished"
  | .MatrixError m => "matrix error: " ++ m
  | .Other message => message
  | .IoError m => m
  | .Utf8Error => "invalid utf-8 sequence"

/-- True exactly for the two error classes on which the classifier restarts
immediately (the first two match arms of the classifier). -/
def SkipperError.isImmediateRestart : SkipperError → Bool
  | .SubscriptionFinished => true
  | .MatrixError _ => true
  | _ => false

/-- One observable external effect, in program order. -/
inductive Event where
  | logWarn (s : String)
  | logError (s : String)
  | logInfo (s : String)
  | sendAttempt (plain formatted : String) (ok : Bool)
  | sleepSecs (n : Nat)
  | spawnProcess (filename : String) (args : List String)
  | panicked
deriving DecidableEq

/-- The plain-text operator message built in the catch-all arm of the
classifier, with the cooldown interval spliced into the text. -/
def onHoldMessage (errorInterval : Nat) : String :=
  "On hold for " ++ toString errorInterval ++ " min!"

/-- The rich-formatted operator message built in the catch-all arm of the
classifier in `spawn_and_restart_subscription_on_error`. -/
def onHoldFormatted (errorInterval : Nat) : String :=
  "<br/>🚨 An error was raised -> <code>skipper</code> on hold for "
    ++ toString errorInterval
    ++ " min while rescue is on the way 🚁 🚒 🚑 🚓<br/><br/>"

/-- One iteration of the loop body of
`spawn_and_restart_subscription_on_error` (src/skipper.rs:160-176), from the
point where `run_and_subscribe_new_session_events` has produced its result.
`subRes = none` models `Ok(())`; `sendOk` is the oracle for the result of
`send_message` in the catch-all arm (only consulted there).  The `continue`
in the catch-all arm skips the trailing one-second sleep, and the `unwrap`
on the send result panics when the send fails. -/
def superviseIteration (config : Config) (subRes : Option SkipperError)
    (sendOk : Bool) : List Event :=
  match subRes with
  | none => []
  | some e =>
    match e with
    | .SubscriptionFinished => [.logWarn e.display, .sleepSecs 1]
    | .MatrixError _ => [.logWarn "Matrix message skipped!", .sleepSecs 1]
    | e =>
      if sendOk then
        [.logError e.display,
         .sendAttempt (onHoldMessage config.error_interval)
           (onHoldFormatted config.error_interval) true,
         .sleepSecs (60 * config.error_interval)]
      else
        [.logError e.display,
         .sendAttempt (onHoldMessage config.error_interval)
           (onHoldFormatted config.error_interval) false,
         .panicked]

/-- Oracle outcome of one `create_substrate_node_client` attempt together
with the three follow-up identity RPCs (`system_chain`, `system_name`,
`system_version`); `none` in a field models that RPC failing, so the code
falls back to its placeholder string. -/
inductive AttemptResult where
  | ok (client : Nat) (chain name version : Option String)
  | err (e : String)
deriving DecidableEq

/-- The `info!` line logged on a successful connection
(src/skipper.rs:66-69), with the `unwrap_or_else` placeholder fallbacks of
lines 50-64 applied to the three identity fields. -/
def connectedLine (url : String) (chain name version : Option String) :
    String :=
  "Connected to " ++ chain.getD "Chain undefined" ++ " network using " ++ url
    ++ " * Substrate node " ++ name.getD "Node name undefined" ++ " v"
    ++ version.getD "Node version undefined"

/-- Embedding of `create_or_await_substrate_node_client`
(src/skipper.rs:46-79): loop
forever over connection attempts; on failure log the error, log the awaiting
line and sleep a literal 6 seconds, then retry; on success log the identity
line and break with the client.  The oracle list supplies one outcome per
attempt; exhausting it (`none` result) models the loop still running, never
an error return — the codomain has no error case. -/
def create_or_await_substrate_node_client (config : Config) :
    List AttemptResult → Option Nat × List Event
  | [] => (none, [])
  | .err e :: rest =>
    let r := create_or_await_substrate_node_client config rest
    (r.1,
     Event.logError e
       :: .logInfo ("Awaiting for connection using " ++ config.substrate_ws_url)
       :: .sleepSecs 6 :: r.2)
  | .ok c chain name version :: _ =>
    (some c, [.logInfo (connectedLine config.substrate_ws_url chain name version)])

/-- Modelled from the spec: the closed `RuntimeVariant` set
(`src/runtimes/support.rs` is not under `src/`): three supported networks,
chosen from the numeric chain address-format identifier, with unsupported
identifiers silently defaulting to the first variant (spec §9). -/
inductive SupportedRuntime where
  | Polkadot
  | Kusama
  | Westend
deriving DecidableEq

/-- Modelled from the spec: `SupportedRuntime::from(chain_prefix)`
(`src/runtimes/support.rs` is not under `src/`), mapping the well-known
address-format identifiers of the three networks and silently defaulting
everything else to the first variant. -/
def SupportedRuntime.ofFormat (n : Nat) : SupportedRuntime :=
  if n = 0 then .Polkadot
  else if n = 2 then .Kusama
  else if n = 42 then .Westend
  else .Polkadot

/-- The fragment of a JSON property value that `as_u64` distinguishes:
`uint n` is an integer representable as `u64` (so `as_u64` yields it,
with `n < 2^64` the modelling boundary), `nonUint` is any other value
(`as_u64` yields nothing). -/
inductive JsonValue where
  | uint (n : Nat)
  | nonUint
deriving DecidableEq

/-- The `as_u64` accessor of the JSON library on the modelled value
fragment. -/
def as_u64 : JsonValue → Option Nat
  | .uint n => some n
  | .nonUint => none

/-- The chain-format computation of `Skipper::new` (src/skipper.rs:94-98):
`ss58_format.as_u64().unwrap_or_default().try_into().unwrap()` when the
`ss58Format` property is present, else `0`.  The `try_into` targets the
16-bit `ChainPrefix`, so its `unwrap` panics (`none`) exactly when the
value is `65536` or larger. -/
def computeChainFormat (ss58 : Option JsonValue) : Option Nat :=
  match ss58 with
  | none => some 0
  | some v =>
    let n := (as_u64 v).getD 0
    if n < 65536 then some n else none

/-- Result of `Skipper::new`: a built session (runtime variant, client
handle, whether the Matrix sink authenticated), a panic from the chain
format conversion, or still pending inside the connection loop. -/
inductive NewOutcome where
  | built (runtime : SupportedRuntime) (client : Nat) (matrixOk : Bool)
  | panicked
  | pending
deriving DecidableEq

/-- Embedding of `Skipper::new` (src/skipper.rs:88-119): acquire a client
(looping until
the oracle yields one), compute the chain format (possibly panicking),
select the runtime, then authenticate the Matrix sink; an authentication
error (`matrixAuth = some err`) is logged via `unwrap_or_else` and replaced
by a default state — construction still completes. -/
def skipperNew (config : Config) (attempts : List AttemptResult)
    (ss58 : Option JsonValue) (matrixAuth : Option String) :
    NewOutcome × List Event :=
  match create_or_await_substrate_node_client config attempts with
  | (none, tr) => (.pending, tr)
  | (some c, tr) =>
    match computeChainFormat ss58 with
    | none => (.panicked, tr)
    | some p =>
      match matrixAuth with
      | none => (.built (SupportedRuntime.ofFormat p) c true, tr)
      | some err =>
        (.built (SupportedRuntime.ofFormat p) c false, tr ++ [.logError err])

/-- `true` for a UTF-8 continuation byte (`0x80..=0xBF`). -/
def contByte (b : Nat) : Bool := 0x80 ≤ b && b < 0xC0

/-- UTF-8 validation and decoding of a byte sequence to its scalar values,
following the checks `String::from_utf8` performs (proper continuation
bytes, no overlong encodings, no surrogates, maximum `0x10FFFF`);
`none` is a `FromUtf8Error`. -/
def utf8Decode : List Nat → Option (List Nat)
  | [] => some []
  | b :: rest =>
    if b < 0x80 then (utf8Decode rest).map (b :: ·)
    else if b < 0xC2 then none
    else if b < 0xE0 then
      match rest with
      | b1 :: rest2 =>
        if contByte b1 then
          (utf8Decode rest2).map (((b - 0xC0) * 64 + (b1 - 0x80)) :: ·)
        else none
      | [] => none
    else if b < 0xF0 then
      match rest with
      | b1 :: b2 :: rest3 =>
        let okB1 :=
          if b = 0xE0 then 0xA0 ≤ b1 && b1 < 0xC0
          else if b = 0xED then 0x80 ≤ b1 && b1 < 0xA0
          else contByte b1
        if okB1 && contByte b2 then
          (utf8Decode rest3).map
            (((b - 0xE0) * 4096 + (b1 - 0x80) * 64 + (b2 - 0x80)) :: ·)
        else none
      | _ => none
    else if b < 0xF5 then
      match rest with
      | b1 :: b2 :: b3 :: rest4 =>
        let okB1 :=
          if b = 0xF0 then 0x90 ≤ b1 && b1 < 0xC0
          else if b = 0xF4 then 0x80 ≤ b1 && b1 < 0x90
          else contByte b1
        if okB1 && contByte b2 && contByte b3 then
          (utf8Decode rest4).map
            (((b - 0xF0) * 262144 + (b1 - 0x80) * 4096 + (b2 - 0x80) * 64
                + (b3 - 0x80)) :: ·)
        else none
      | _ => none
    else none

/-- Embedding of `String::from_utf8(output.stdout)` on the captured bytes,
as the decoded character sequence (`none` is the propagated
`FromUtf8Error`). -/
def string_from_utf8 (bytes : List Nat) : Option (List Char) :=
  (utf8Decode bytes).map (fun cs => cs.map Char.ofNat)

/-- Helper of `rustLines`: `acc` holds the current line reversed.  On a
line feed, a carriage return directly before it is stripped from the
finished line; a final line without terminator keeps any trailing carriage
return, and a trailing empty segment is not a line. -/
def linesAux (acc : List Char) : List Char → List (List Char)
  | [] => if acc.isEmpty then [] else [acc.reverse]
  | c :: rest =>
    if c = '\n' then
      (match acc with
       | '\r' :: acc2 => acc2.reverse
       | _ => acc.reverse) :: linesAux [] rest
    else linesAux (c :: acc) rest

/-- The Rust `str::lines` iteration on the decoded output: split at `\n` or
`\r\n`, terminators excluded, a final terminator optional. -/
def rustLines (s : List Char) : List (List Char) := linesAux [] s

/-- Oracle for one `try_call_hook` invocation: whether
`Path::new(filename).exists()`, and — if the process is launched — either
its exit code and raw stdout bytes, or `none` for a launch failure
(`Command::output` returning an I/O error). -/
structure HookWorld where
  pathExists : Bool
  launch : Option (Nat × List Nat)
deriving DecidableEq

/-- Embedding of `try_call_hook` (src/skipper.rs:192-207): a missing path
is a silent
no-op success with no process launched; otherwise the process runs, a
launch failure propagates as an I/O error, a non-zero exit status returns
the `Other` hook error before any output is examined, and on exit status 0
the stdout bytes are UTF-8-decoded (an invalid sequence propagating as an
error) and each line is logged at info level with a `"> "` prefix, in
order. -/
def try_call_hook (name filename : String) (args : List String)
    (w : HookWorld) : Except SkipperError Unit × List Event :=
  if w.pathExists then
    match w.launch with
    | none =>
      (.error (.IoError "failed to execute hook process"),
       [.spawnProcess filename args])
    | some (code, outBytes) =>
      if code ≠ 0 then
        (.error (.Other ("Hook script " ++ name ++ " executed with error")),
         [.spawnProcess filename args])
      else
        match string_from_utf8 outBytes with
        | none => (.error .Utf8Error, [.spawnProcess filename args])
        | some text =>
          (.ok (),
           .spawnProcess filename args
             :: (rustLines text).map (fun l => .logInfo ("> " ++ String.mk l)))
  else (.ok (), [])

/-- Decidable equality for hook results, so concrete runs can be settled by
evaluation. -/
instance : DecidableEq (Except SkipperError Unit) := fun a b =>
  match a, b with
  | .ok (), .ok () => isTrue rfl
  | .error x, .error y =>
    match decEq x y with
    | isTrue h => isTrue (by rw [h])
    | isFalse h => isFalse (by intro hh; cases hh; exact h rfl)
  | .ok _, .error _ => isFalse (by intro h; exact Except.noConfusion h)
  | .error _, .ok _ => isFalse (by intro h; exact Except.noConfusion h)

/-- Claim C1: the supervisor classifier behaves per the table.  A
`SubscriptionFinished` result is logged at warning level and restarts with
no notification attempted; a `MatrixError` result logs the warning
"Matrix message skipped!" and restarts with no further notification
attempted for that cycle; an `Other(message)` result (here with the send
succeeding — the failing send is the subject of C5) logs at error level,
attempts exactly one operator notification, and then sleeps exactly
`60 * error_interval` seconds, i.e. `error_interval` minutes, before the
restart. -/
theorem supervisor_classification_table (config : Config) (m msg : String)
    (sendOk : Bool) :
    superviseIteration config (some .SubscriptionFinished) sendOk
        = [.logWarn SkipperError.SubscriptionFinished.display, .sleepSecs 1] ∧
    superviseIteration config (some (.MatrixError m)) sendOk
        = [.logWarn "Matrix message skipped!", .sleepSecs 1] ∧
    superviseIteration config (some (.Other msg)) true
        = [.logError (SkipperError.Other msg).display,
           .sendAttempt (onHoldMessage config.error_interval)
             (onHoldFormatted config.error_interval) true,
           .sleepSecs (60 * config.error_interval)] :=
  ⟨rfl, rfl, rfl⟩

/-- Claim C2: for every sequence of `n` consecutive connection-attempt
failures followed by one success, the Connection Acquirer logs each of the
`n` failures, sleeps the fixed 6-second delay between attempts — a literal
constant, independent of the quantified `config` — and returns exactly one
connected client handle.  The codomain `Option Nat` has no error case at
all: `none` only models an exhausted oracle, i.e. the loop still
retrying. -/
theorem acquirer_retries_until_success (config : Config) (e : String)
    (n c : Nat) (chain name version : Option String)
    (rest : List AttemptResult) :
    create_or_await_substrate_node_client config
        (List.replicate n (.err e) ++ .ok c chain name version :: rest)
      = (some c,
         (List.replicate n
            [Event.logError e,
             .logInfo ("Awaiting for connection using "
               ++ config.substrate_ws_url),
             .sleepSecs 6]).flatten
           ++ [.logInfo
                 (connectedLine config.substrate_ws_url chain name version)]) := by
  induction n with
  | zero => simp [create_or_await_substrate_node_client]
  | succ k ih =>
    simp [List.replicate_succ, create_or_await_substrate_node_client, ih]

/-- Claim C3, counterexample: a hook whose script exists and exits with
status 3 after writing the line `hi` to stdout returns the `Other` error
naming the hook — but, contrary to the claim, the written line does NOT
appear in the log: the function returns before examining stdout, so the
trace holds no log event at all. -/
theorem hook_nonzero_exit_cex :
    (try_call_hook "Hook New Session" "/hooks/new_session.sh" []
        ⟨true, some (3, [104, 105, 10])⟩).1
      = .error (.Other "Hook script Hook New Session executed with error") ∧
    string_from_utf8 [104, 105, 10] = some ['h', 'i', '\n'] ∧
    rustLines ['h', 'i', '\n'] = [['h', 'i']] ∧
    Event.logInfo "> hi" ∉
      (try_call_hook "Hook New Session" "/hooks/new_session.sh" []
        ⟨true, some (3, [104, 105, 10])⟩).2 := by decide

/-- Claim C3, amended: for every hook invocation where the script exists
and exits with a non-zero status, `try_call_hook` returns an `Other` error
whose message contains the logical hook name, and no stdout line is logged
— stdout is discarded on the error path. -/
theorem hook_nonzero_exit_returns_other_logs_nothing
    (name filename : String) (args : List String) (code : Nat)
    (outBytes : List Nat) (h : code ≠ 0) :
    try_call_hook name filename args ⟨true, some (code, outBytes)⟩
      = (.error (.Other ("Hook script " ++ name ++ " executed with error")),
         [.spawnProcess filename args]) := by
  simp [try_call_hook, h]

/-- Witness for C3 amended: the concrete exit-3 run, hypotheses discharged
by evaluation. -/
theorem hook_nonzero_exit_witness :
    try_call_hook "Hook New Session" "/hooks/new_session.sh" []
        ⟨true, some (3, [104, 105, 10])⟩
      = (.error (.Other ("Hook script " ++ "Hook New Session"
           ++ " executed with error")),
         [.spawnProcess "/hooks/new_session.sh" []]) :=
  hook_nonzero_exit_returns_other_logs_nothing "Hook New Session"
    "/hooks/new_session.sh" [] 3 [104, 105, 10] (by decide)

/-- Claim C4, counterexample: with `error_interval = 5` and an
`Other("decode failure")` result whose notification send succeeds, the
iteration trace is exactly the error log, the one send, and the 300-second
cooldown — no one-second delay is inserted before the next Session, because
the `continue` in the catch-all arm skips the trailing
`thread::sleep(...from_secs(1))`. -/
theorem cooldown_skips_restart_delay_cex :
    superviseIteration ⟨"ws://localhost:9944", 5⟩
        (some (.Other "decode failure")) true
      = [.logError "decode failure",
         .sendAttempt (onHoldMessage 5) (onHoldFormatted 5) true,
         .sleepSecs 300] ∧
    Event.sleepSecs 1 ∉
      superviseIteration ⟨"ws://localhost:9944", 5⟩
        (some (.Other "decode failure")) true :=
  ⟨rfl, by decide⟩

/-- Claim C4, amended: the fixed one-second delay precedes the next Session
only after the two immediate-restart classifications (`SubscriptionFinished`
and `MatrixError`), where it is the final event of the iteration; after the
`Other`-error cooldown the loop rebuilds the Session directly, with no
one-second delay anywhere in the iteration. -/
theorem restart_delay_only_after_immediate_restarts (config : Config)
    (m msg : String) (sendOk : Bool) :
    (superviseIteration config (some .SubscriptionFinished) sendOk).getLast?
        = some (.sleepSecs 1) ∧
    (superviseIteration config (some (.MatrixError m)) sendOk).getLast?
        = some (.sleepSecs 1) ∧
    Event.sleepSecs 1 ∉ superviseIteration config (some (.Other msg)) true := by
  refine ⟨rfl, rfl, ?_⟩
  simp [superviseIteration]
  omega

/-- Claim C5: the panic (the `unwrap` on the notification send) is
reachable exactly when the subscription result falls into the catch-all arm
and `send_message` fails there; it is unreachable from every other
classification and from a successful send. -/
theorem panic_iff_send_fails (config : Config) (subRes : Option SkipperError)
    (sendOk : Bool) :
    Event.panicked ∈ superviseIteration config subRes sendOk ↔
      sendOk = false
        ∧ ∃ e, subRes = some e ∧ e.isImmediateRestart = false := by
  cases subRes with
  | none => simp [superviseIteration]
  | some e =>
    cases e <;> cases sendOk <;>
      simp [superviseIteration, SkipperError.isImmediateRestart]

/-- Claim C6: invoking a hook whose script path does not exist returns
success with an empty trace — in particular no `spawnProcess` event, so no
external process is launched, for every name, path, argument list and
would-be process behavior. -/
theorem hook_missing_path_noop (name filename : String) (args : List String)
    (launch : Option (Nat × List Nat)) :
    try_call_hook name filename args ⟨false, launch⟩ = (.ok (), []) := rfl

/-- Claim C7, counterexample: a hook whose script exists and exits with
status 0 but writes the non-UTF-8 byte `0xFF` to stdout does not return
success — the `FromUtf8Error` propagates through the `?` operator. -/
theorem hook_zero_exit_invalid_utf8_cex :
    (try_call_hook "Hook Active Next Era" "/hooks/era.sh" []
        ⟨true, some (0, [255])⟩).1 = .error .Utf8Error ∧
    (try_call_hook "Hook Active Next Era" "/hooks/era.sh" []
        ⟨true, some (0, [255])⟩).1 ≠ .ok () := by decide

/-- Claim C7, amended: for every hook invocation where the script exists,
exits with status 0, and its captured stdout decodes as UTF-8,
`try_call_hook` returns success and every line of the output is logged at
info level, in original order. -/
theorem hook_zero_exit_logs_lines (name filename : String)
    (args : List String) (outBytes : List Nat) (text : List Char)
    (h : string_from_utf8 outBytes = some text) :
    try_call_hook name filename args ⟨true, some (0, outBytes)⟩
      = (.ok (),
         .spawnProcess filename args
           :: (rustLines text).map (fun l => .logInfo ("> " ++ String.mk l))) := by
  simp [try_call_hook, h]

/-- Witness for C7 amended: a script echoing the two lines `ok` and `fine`
and exiting 0 yields success with both lines logged in order. -/
theorem hook_zero_exit_logs_lines_witness :
    try_call_hook "Hook New Session" "/hooks/new_session.sh" []
        ⟨true, some (0, [111, 107, 10, 102, 105, 110, 101, 10])⟩
      = (.ok (),
         [.spawnProcess "/hooks/new_session.sh" [],
          .logInfo "> ok", .logInfo "> fine"]) := by
  rw [hook_zero_exit_logs_lines "Hook New Session" "/hooks/new_session.sh" []
    [111, 107, 10, 102, 105, 110, 101, 10]
    ['o', 'k', '\n', 'f', 'i', 'n', 'e', '\n'] (by decide)]
  decide

/-- Claim C8: Session construction completes and yields a usable Skipper
even when the Matrix sink authentication fails — given any oracle on which
the connection loop succeeds and the chain-format conversion does not
panic, an authentication error is logged, the outcome is a fully built
session (runtime selected, client held, sink in its default state), and
neither an error nor a panic escapes that path. -/
theorem skipper_new_survives_matrix_auth_failure (config : Config)
    (attempts : List AttemptResult) (ss58 : Option JsonValue) (p c : Nat)
    (tr : List Event) (err : String)
    (hc : create_or_await_substrate_node_client config attempts
            = (some c, tr))
    (hp : computeChainFormat ss58 = some p) :
    skipperNew config attempts ss58 (some err)
      = (.built (SupportedRuntime.ofFormat p) c false,
         tr ++ [.logError err]) := by
  simp [skipperNew, hc, hp]

/-- Witness for C8: a first-attempt connection with no `ss58Format`
property and a denied Matrix authentication still builds the session, with
the denial logged. -/
theorem skipper_new_survives_matrix_auth_failure_witness :
    skipperNew ⟨"ws://localhost:9944", 5⟩ [.ok 7 none none none] none
        (some "auth denied")
      = (.built (SupportedRuntime.ofFormat 0) 7 false,
         [Event.logInfo (connectedLine "ws://localhost:9944" none none none)]
           ++ [.logError "auth denied"]) :=
  skipper_new_survives_matrix_auth_failure ⟨"ws://localhost:9944", 5⟩
    [.ok 7 none none none] none 0 7
    [Event.logInfo (connectedLine "ws://localhost:9944" none none none)]
    "auth denied" (by decide) (by decide)

/-- Claim C9: a hook whose script exists, exits with status 0, but writes
bytes that are not valid UTF-8 makes `try_call_hook` return an error, and
no output line is logged — the trace holds only the process launch. -/
theorem hook_invalid_utf8_error (name filename : String)
    (args : List String) (outBytes : List Nat)
    (h : string_from_utf8 outBytes = none) :
    try_call_hook name filename args ⟨true, some (0, outBytes)⟩
      = (.error .Utf8Error, [.spawnProcess filename args]) := by
  simp [try_call_hook, h]

/-- Witness for C9: the lone byte `0xFF` is not valid UTF-8, and the
exit-0 run returns the propagated error with nothing logged. -/
theorem hook_invalid_utf8_error_witness :
    try_call_hook "Hook Inactive Next Era" "/hooks/inactive.sh" []
        ⟨true, some (0, [255])⟩
      = (.error .Utf8Error, [.spawnProcess "/hooks/inactive.sh" []]) :=
  hook_invalid_utf8_error "Hook Inactive Next Era" "/hooks/inactive.sh" []
    [255] (by decide)

/-- Claim C10: when the connected node reports an `ss58Format` whose
integer value exceeds 65535 (any `u64`-representable value), the `try_into`
to the 16-bit chain-format type panics and Session construction aborts,
for every Matrix oracle; a present but non-integer value is instead treated
as chain format 0, and construction proceeds on that basis. -/
theorem ss58_format_overflow_panics (config : Config)
    (attempts : List AttemptResult) (c n : Nat) (tr : List Event)
    (matrixAuth : Option String)
    (hc : create_or_await_substrate_node_client config attempts
            = (some c, tr))
    (hn : n < 2 ^ 64) (hbig : 65535 < n) :
    (skipperNew config attempts (some (.uint n)) matrixAuth).1 = .panicked ∧
    computeChainFormat (some .nonUint) = some 0 ∧
    (skipperNew config attempts (some .nonUint) none).1
        = .built (SupportedRuntime.ofFormat 0) c true := by
  refine ⟨?_, rfl, ?_⟩
  · have hlt : ¬ n < 65536 := by omega
    simp [skipperNew, hc, computeChainFormat, as_u64, hlt]
  · simp [skipperNew, hc, computeChainFormat, as_u64]

/-- Witness for C10: the value 65536 panics the conversion on a
first-attempt connection, while a non-integer value builds with chain
format 0. -/
theorem ss58_format_overflow_panics_witness :
    (skipperNew ⟨"ws://localhost:9944", 5⟩ [.ok 7 none none none]
        (some (.uint 65536)) none).1 = .panicked ∧
    computeChainFormat (some .nonUint) = some 0 ∧
    (skipperNew ⟨"ws://localhost:9944", 5⟩ [.ok 7 none none none]
        (some .nonUint) none).1
      = .built (SupportedRuntime.ofFormat 0) 7 true :=
  ss58_format_overflow_panics ⟨"ws://localhost:9944", 5⟩
    [.ok 7 none none none] 7 65536
    [Event.logInfo (connectedLine "ws://localhost:9944" none none none)]
    none (by decide) (by norm_num) (by norm_num)

end Skipper
